import Mathlib

/-!
# Verification of the AIWZC RTSP recording controller

Shallow embedding of `src/rtsp_recorder.py` (the `RTSPRecorder` class:
connection supervisor `_initialize_capture` and the recording loop `record`)
and `src/api_server.py` (the `RecordingManager`: `start_recording`,
`stop_recording`, `_handle_recording_completion`).

Modelling conventions:
* Wall-clock times and negotiated stream properties are modelled as `Int`
  (the Python code converts the cv2-reported properties with `int(...)`
  before any comparison, so integer values are the values the code acts on).
* External collaborators (cv2 capture, the filesystem, the `iput` upload
  subprocess) are modelled as oracles: a function `Nat → AttemptOutcome`
  describing what each connection attempt observes, a `List LoopStep`
  describing what each loop iteration observes, a `List FileEntry` for the
  recordings directory, an `UploadOutcome` for the archival subprocess.
* Side effects (resource release, backoff sleeps, process spawns, subprocess
  invocations) are recorded as explicit event traces so that ordering claims
  can be stated.
* Logging calls are not modelled (pure observations).
-/

/-- Stream properties as negotiated by `cv2.VideoCapture.get`, after the
`int(...)` conversions on lines 53-55 of `rtsp_recorder.py`. -/
structure StreamProps where
  width : Int
  height : Int
  fps : Int
deriving DecidableEq, Repr

/-- What one connection attempt observes from the external capture library:
either `cv2.VideoCapture` fails to open (`isOpened()` false, line 49), or it
opens and negotiates properties `p`. -/
inductive AttemptOutcome
  | openFailed
  | opened (p : StreamProps)
deriving DecidableEq, Repr

/-- Observable actions of `_initialize_capture`:
`tryOpen` = constructing `cv2.VideoCapture` (line 48); `openedProps p` = the
capture opened and the property queries (lines 53-55) returned `p`;
`release` = `self.cap.release()` in the except handler (line 69);
`sleep t` = `time.sleep(t)` before a retry (line 71). -/
inductive InitEvent
  | tryOpen
  | openedProps (p : StreamProps)
  | release
  | sleep (t : Nat)
deriving DecidableEq, Repr, BEq

/-- Result of `_initialize_capture`: `connected w h fps` = normal return with
the stored `frame_width`, `frame_height`, `fps` fields; `connectionExhausted`
= the `ConnectionError` raised on line 73 after the last failed attempt;
`fellThrough` = the `for` loop body never ran (only possible when
`reconnect_attempts = 0`: the Python function then returns with no capture
initialised). -/
inductive InitResult
  | connected (w h fps : Int)
  | connectionExhausted
  | fellThrough
deriving DecidableEq, Repr

/-- The body of `_initialize_capture`'s retry loop (lines 46-73 of
`rtsp_recorder.py`). `total` is `self.reconnect_attempts`, `i` is the current
value of `attempt`, and the second `Nat` argument is the number of remaining
iterations of `range(total)` (so `i + remaining = total` at every call).

Faithful details: the fps fallback (lines 57-58) is computed before the
geometry check (lines 60-61); a `ValueError` from bad geometry is caught by
the same generic `except` (line 66) as an open failure, which releases the
capture (line 69, the capture object exists and is truthy in both failure
cases) and either sleeps 2 seconds when `attempt < total - 1` (lines 70-71)
or raises `ConnectionError` (line 73). -/
def initAux (env : Nat → AttemptOutcome) (total : Nat) :
    Nat → Nat → InitResult × List InitEvent
  | _, 0 => (.fellThrough, [])
  | i, r + 1 =>
    match env i with
    | .openFailed =>
      if i < total - 1 then
        let rest := initAux env total (i + 1) r
        (rest.1, [.tryOpen, .release, .sleep 2] ++ rest.2)
      else
        (.connectionExhausted, [.tryOpen, .release])
    | .opened p =>
      let f := if p.fps ≤ 0 then 30 else p.fps
      if p.width ≤ 0 ∨ p.height ≤ 0 then
        if i < total - 1 then
          let rest := initAux env total (i + 1) r
          (rest.1, [.tryOpen, .openedProps p, .release, .sleep 2] ++ rest.2)
        else
          (.connectionExhausted, [.tryOpen, .openedProps p, .release])
      else
        (.connected p.width p.height f, [.tryOpen, .openedProps p])

/-- `_initialize_capture` with `reconnect_attempts = attempts`, run against
the attempt oracle `env`. -/
def initializeCapture (env : Nat → AttemptOutcome) (attempts : Nat) :
    InitResult × List InitEvent :=
  initAux env attempts 0 attempts

/-- Whether an attempt outcome makes the attempt's `try` body raise
(open failure on line 50, or the geometry `ValueError` on line 61). -/
def attemptFails : AttemptOutcome → Bool
  | .openFailed => true
  | .opened p => p.width ≤ 0 || p.height ≤ 0

/-- Events that are releases or backoff sleeps (used to state ordering of
cleanup and backoff within the retry trace). -/
def isReleaseOrSleep : InitEvent → Bool
  | .release => true
  | .sleep _ => true
  | _ => false

/-- The release/backoff shape the spec prescribes for `n` consecutive failed
attempts: a release after every failure, a fixed 2-unit sleep between
consecutive attempts, and no sleep after the final attempt. -/
def releaseBackoffShape : Nat → List InitEvent
  | 0 => []
  | 1 => [.release]
  | n + 2 => .release :: .sleep 2 :: releaseBackoffShape (n + 1)

/-- The events one failing attempt produces before control reaches the
retry/raise decision: the capture construction, the property queries when the
capture did open, and the release in the except handler. -/
def failEvents : AttemptOutcome → List InitEvent
  | .openFailed => [.tryOpen, .release]
  | .opened p => [.tryOpen, .openedProps p, .release]

/-! ## Recording Loop (`RTSPRecorder.record`, lines 80-175) -/

/-- Mutable state of one `record` run (lines 113-117): `lastFrameTime` is
`last_frame_time`, `reconnectionCount` is `reconnection_count`,
`framesRecorded` is `frames_recorded`, and `fileSize` abstracts the size of
the output file as the number of frames written to it (the writer creates
the file empty; container header bytes are not modelled). -/
structure RecState where
  lastFrameTime : Int
  reconnectionCount : Nat
  framesRecorded : Nat
  fileSize : Nat
deriving DecidableEq, Repr

/-- External observations of one loop iteration: `stopFlag` is the value of
`self.stop_recording` at the `while` test (settable asynchronously by the
signal handler); `ret` is the boolean from `self.cap.read()`; `t` is
`time.time()` right after the read; when the iteration attempts a
reconnection, `reconnectOk` says whether `_initialize_capture` returns
normally and `reconnectTime` is the `time.time()` taken on line 138. -/
structure LoopStep where
  stopFlag : Bool
  ret : Bool
  t : Int
  reconnectOk : Bool
  reconnectTime : Int
deriving DecidableEq, Repr

/-- How control left the `while` loop: the `while` guard saw
`stop_recording` (`stopped`), the duration `break` on line 127
(`durationReached`), the max-reconnections `break` on line 142
(`maxReconnects`), or an exception propagating from the loop body — e.g.
`_initialize_capture` raising `ConnectionError` — caught by the `except` on
line 154 (`exception`). -/
inductive LoopExit
  | stopped
  | durationReached
  | maxReconnects
  | exception
deriving DecidableEq, Repr

/-- The `while` loop of `record` (lines 120-152), driven by the iteration
trace `steps`. Returns `none` when the trace is exhausted before the loop
exits. `max_reconnections` is the literal 3 from line 117; the staleness
threshold is the literal 5.0 from line 131. The progress-logging block
(lines 150-152) has no observable effect and is not modelled. -/
def recordLoop (duration startTime : Int) :
    RecState → List LoopStep → Option (LoopExit × RecState)
  | _, [] => none
  | st, step :: rest =>
    if step.stopFlag then some (.stopped, st)
    else
      if step.t - startTime ≥ duration then some (.durationReached, st)
      else if step.ret then
        recordLoop duration startTime
          { lastFrameTime := step.t
            reconnectionCount := 0
            framesRecorded := st.framesRecorded + 1
            fileSize := st.fileSize + 1 } rest
      else
        if step.t - st.lastFrameTime > 5 then
          if st.reconnectionCount < 3 then
            if step.reconnectOk then
              recordLoop duration startTime
                { st with
                    reconnectionCount := st.reconnectionCount + 1
                    lastFrameTime := step.reconnectTime } rest
            else some (.exception, st)
          else some (.maxReconnects, st)
        else recordLoop duration startTime st rest

/-- State at the top of `record`'s loop (lines 113-116): the staleness clock
starts at `start_time`, the counters at zero, the file freshly created. -/
def initialRecState (startTime : Int) : RecState :=
  { lastFrameTime := startTime, reconnectionCount := 0
    framesRecorded := 0, fileSize := 0 }

/-- The boolean result of `record`. In Python the `finally` block
(lines 158-175) ends in a `return`, so it replaces whatever the `try` body
or the `except` handler would have returned and swallows any pending
exception: the result is `True` iff the output file exists with non-zero
size (line 170), for every way the loop exited. -/
def recordResult (duration startTime : Int) (st : RecState)
    (steps : List LoopStep) : Option Bool :=
  (recordLoop duration startTime st steps).map (fun r => decide (0 < r.2.fileSize))

/-! ## Session Orchestrator and Completion Pipeline
(`api_server.py`, class `RecordingManager`) -/

/-- Mutable state of a `RecordingManager` (lines 61-66): `is_recording`,
whether `self.process` is set (non-`None`), whether `self._upload_thread`
is set, and `self._recording_start_time`. The immutable configuration
(`rtsp_url`, `duration`, `irods_path`) is passed as parameters. -/
structure ManagerState where
  is_recording : Bool
  processPresent : Bool
  uploadThreadPresent : Bool
  recordingStartTime : Option Int
deriving DecidableEq, Repr

/-- Manager state as constructed by `__init__`: nothing running. -/
def idleManagerState : ManagerState :=
  { is_recording := false, processPresent := false
    uploadThreadPresent := false, recordingStartTime := none }

/-- Observable side effects of the manager's operations:
`spawnProcess` = `subprocess.Popen` of the recorder (line 83),
`startUploadThread` = starting `_handle_recording_completion`'s thread
(line 91), `terminateProcess` = `self.process.terminate()` (line 120),
`waitProcess` = `self.process.wait()` (lines 117/121),
`joinUploadThread t` = `self._upload_thread.join(timeout=t)` (line 125). -/
inductive ManagerEvent
  | spawnProcess
  | startUploadThread
  | terminateProcess
  | waitProcess
  | joinUploadThread (timeout : Nat)
deriving DecidableEq, Repr, BEq

/-- `RecordingManager.start_recording` (lines 68-97) at time `now`, on its
non-exceptional path: if `is_recording` it returns
`(False, "Already recording")` before touching anything; otherwise it spawns
the recorder process, marks the session active, records the start time and
starts the completion/upload thread. (The `except` branch, reachable only
if `Popen` itself raises, is not modelled.) -/
def start_recording (st : ManagerState) (now : Int) :
    (Bool × String) × ManagerState × List ManagerEvent :=
  if st.is_recording then ((false, "Already recording"), st, [])
  else
    ((true, "Recording started"),
      { is_recording := true, processPresent := true
        uploadThreadPresent := true, recordingStartTime := some now },
      [.spawnProcess, .startUploadThread])

/-- `RecordingManager.stop_recording` (lines 99-130) at time `now` with
configured `duration`. Returns `none` for the Python path that falls off the
end of the function returning `None` (process absent while `is_recording`);
the path where `_recording_start_time` is `None` raises a `TypeError` inside
the `try`, caught on line 128 and returned as a failure (its message is
abstracted to the exception's name). The manager state is not mutated by
`stop_recording`. -/
def stop_recording (st : ManagerState) (now duration : Int) :
    Option (Bool × String) × ManagerState × List ManagerEvent :=
  if ¬ st.is_recording then (some (false, "No active recording"), st, [])
  else if st.processPresent then
    match st.recordingStartTime with
    | none => (some (false, "TypeError"), st, [])
    | some t0 =>
      let elapsed := now - t0
      let remaining := max 0 (duration - elapsed)
      let waitEvents : List ManagerEvent :=
        if remaining < 10 then [.waitProcess]
        else [.terminateProcess, .waitProcess]
      let joinEvents : List ManagerEvent :=
        if st.uploadThreadPresent then [.joinUploadThread 300] else []
      (some (true, "Recording stopped and saved successfully"), st,
        waitEvents ++ joinEvents)
  else (none, st, [])

/-- One file in the shared recordings directory: its name, its modification
time, and an abstract content value (two entries with equal `content` model
byte-identical files; retention "with unchanged content" is modelled as the
entry surviving unchanged). -/
structure FileEntry where
  name : String
  mtime : Int
  content : Nat
deriving DecidableEq, Repr

/-- The glob pattern `recording_*.mp4` used on line 141 of `api_server.py`
(`*` matches any, possibly empty, run of characters): the name begins with
`recording_` and ends with `.mp4`. Stated on the character list of the name;
the two tests cannot overlap on a name shorter than the two literals
combined, because the fixed characters would have to disagree. -/
def matchesRecordingGlob (s : String) : Bool :=
  (s.data.take 10 == "recording_".data) &&
    (s.data.drop (s.data.length - 4) == ".mp4".data)

/-- `max(self.output_dir.glob("recording_*.mp4"), key=..st_mtime, default=None)`
(lines 140-144): the matching file with the greatest modification time, or
`none` when no file matches. Python's `max` keeps the earlier element on
ties, so the accumulator is replaced only on a strictly greater key.
`maxByMtime` is one comparison step of that `max`. -/
def maxByMtime (acc : Option FileEntry) (f : FileEntry) : Option FileEntry :=
  match acc with
  | none => some f
  | some g => if g.mtime < f.mtime then some f else some g

/-- The file `_handle_recording_completion` resolves on lines 140-144. -/
def latestRecording (files : List FileEntry) : Option FileEntry :=
  (files.filter (fun f => matchesRecordingGlob f.name)).foldl maxByMtime none

/-- Outcome of the `subprocess.run(["iput", ...], timeout=300)` call
(lines 154-159): the process exited with a code (and captured stderr), or
`subprocess.TimeoutExpired` was raised. -/
inductive UploadOutcome
  | exited (code : Int) (stderrText : String)
  | timedOut
deriving DecidableEq, Repr

/-- The success test the code applies to the upload subprocess
(`upload_process.returncode == 0`, line 161). -/
def uploadSucceeded : UploadOutcome → Bool
  | .exited code _ => code = 0
  | .timedOut => false

/-- What `_handle_recording_completion` leaves behind: the recordings
directory after any deletion, the list of `iput` invocations it made (each a
pair of local file name and destination path), and the manager state after
the `finally` block. -/
structure CompletionResult where
  files : List FileEntry
  invocations : List (String × String)
  mgr : ManagerState
deriving DecidableEq, Repr

/-- The `finally` block of `_handle_recording_completion` (lines 176-179):
`is_recording = False`, `process = None`, `_recording_start_time = None`.
`_upload_thread` is not reset. This is the only manager-state mutation the
completion thread performs, and it happens only when the thread finishes. -/
def completionFinally (st : ManagerState) : ManagerState :=
  { st with is_recording := false, processPresent := false
            recordingStartTime := none }

/-- `RecordingManager._handle_recording_completion` (lines 132-179) after
`self.process.wait()` has returned with exit code `rc`, run against the
directory contents `files`, the configured destination `dest`, and the
upload-subprocess oracle `upload`. When `rc = 0` it picks the newest
`recording_*.mp4` file; if none exists it logs and returns; otherwise it
invokes `iput` once and deletes the file exactly when the exit code is 0
(non-zero exit and timeout both retain the file untouched). When `rc ≠ 0`
nothing is uploaded or deleted. In every case the `finally` block then
resets the manager state. -/
def handleRecordingCompletion (rc : Int) (dest : String)
    (files : List FileEntry) (upload : UploadOutcome) (mgr : ManagerState) :
    CompletionResult :=
  let body : List FileEntry × List (String × String) :=
    if rc = 0 then
      match latestRecording files with
      | none => (files, [])
      | some f =>
        if uploadSucceeded upload then
          (files.filter (fun g => g.name ≠ f.name), [(f.name, dest)])
        else
          (files, [(f.name, dest)])
    else (files, [])
  { files := body.1, invocations := body.2, mgr := completionFinally mgr }

/-! ## Helper lemmas -/

theorem failEvents_count_tryOpen (o : AttemptOutcome) :
    (failEvents o).count .tryOpen = 1 := by
  cases o <;> rfl

theorem failEvents_filter (o : AttemptOutcome) :
    (failEvents o).filter isReleaseOrSleep = [.release] := by
  cases o <;> rfl

theorem initAux_last_fail (env : Nat → AttemptOutcome) (total i : Nat)
    (hlast : ¬ i < total - 1) (hf : attemptFails (env i) = true) :
    initAux env total i 1 = (.connectionExhausted, failEvents (env i)) := by
  cases henv : env i with
  | openFailed => simp [initAux, henv, hlast, failEvents]
  | opened p =>
    rw [henv] at hf
    simp only [attemptFails, Bool.or_eq_true, decide_eq_true_eq] at hf
    simp [initAux, henv, hlast, hf, failEvents]

theorem initAux_mid_fail (env : Nat → AttemptOutcome) (total i r : Nat)
    (hmid : i < total - 1) (hf : attemptFails (env i) = true) :
    initAux env total i (r + 1 + 1) =
      ((initAux env total (i + 1) (r + 1)).1,
        failEvents (env i) ++ [.sleep 2] ++
          (initAux env total (i + 1) (r + 1)).2) := by
  cases henv : env i with
  | openFailed => simp [initAux, henv, hmid, failEvents]
  | opened p =>
    rw [henv] at hf
    simp only [attemptFails, Bool.or_eq_true, decide_eq_true_eq] at hf
    simp [initAux, henv, hmid, hf, failEvents]

theorem initAux_allFail (env : Nat → AttemptOutcome) (total : Nat) :
    ∀ r i, i + (r + 1) = total →
      (∀ j, i ≤ j → j < total → attemptFails (env j) = true) →
      (initAux env total i (r + 1)).1 = .connectionExhausted ∧
      ((initAux env total i (r + 1)).2.count .tryOpen = r + 1) ∧
      (initAux env total i (r + 1)).2.filter isReleaseOrSleep =
        releaseBackoffShape (r + 1) := by
  intro r
  induction r with
  | zero =>
    intro i hi hfail
    have hlast : ¬ i < total - 1 := by omega
    have hf := hfail i le_rfl (by omega)
    rw [initAux_last_fail env total i hlast hf]
    exact ⟨rfl, failEvents_count_tryOpen _, failEvents_filter _⟩
  | succ s ih =>
    intro i hi hfail
    have hmid : i < total - 1 := by omega
    have hf := hfail i le_rfl (by omega)
    have hrec := ih (i + 1) (by omega)
      (fun j hj hj' => hfail j (by omega) hj')
    rw [initAux_mid_fail env total i s hmid hf]
    refine ⟨hrec.1, ?_, ?_⟩
    · simp only [List.count_append, hrec.2.1, failEvents_count_tryOpen]
      have h0 : List.count InitEvent.tryOpen [InitEvent.sleep 2] = 0 := rfl
      omega
    · simp only [List.filter_append, hrec.2.2, failEvents_filter]
      simp [isReleaseOrSleep, releaseBackoffShape]

theorem initAux_connected_fps_pos (env : Nat → AttemptOutcome) (total : Nat) :
    ∀ r i w h f, (initAux env total i r).1 = .connected w h f → 0 < f := by
  intro r
  induction r with
  | zero =>
    intro i w h f hEq
    simp [initAux] at hEq
  | succ s ih =>
    intro i w h f hEq
    unfold initAux at hEq
    cases henv : env i with
    | openFailed =>
      rw [henv] at hEq
      simp only at hEq
      by_cases hg : i < total - 1
      · rw [if_pos hg] at hEq
        exact ih (i + 1) w h f hEq
      · rw [if_neg hg] at hEq
        simp at hEq
    | opened p =>
      rw [henv] at hEq
      simp only at hEq
      by_cases hgeo : p.width ≤ 0 ∨ p.height ≤ 0
      · rw [if_pos hgeo] at hEq
        by_cases hg : i < total - 1
        · rw [if_pos hg] at hEq
          exact ih (i + 1) w h f hEq
        · rw [if_neg hg] at hEq
          simp at hEq
      · rw [if_neg hgeo] at hEq
        simp only [InitResult.connected.injEq] at hEq
        obtain ⟨-, -, hf⟩ := hEq
        subst hf
        by_cases hfps : p.fps ≤ 0
        · simp [hfps]
        · simp [hfps]; omega

theorem maxByMtime_some (acc : Option FileEntry) (a : FileEntry) :
    ∃ m, maxByMtime acc a = some m ∧ a.mtime ≤ m.mtime ∧
      (m = a ∨ acc = some m) ∧ (∀ g, acc = some g → g.mtime ≤ m.mtime) := by
  cases acc with
  | none => exact ⟨a, rfl, le_refl _, Or.inl rfl, by simp⟩
  | some g0 =>
    by_cases hlt : g0.mtime < a.mtime
    · refine ⟨a, by simp [maxByMtime, hlt], le_refl _, Or.inl rfl, ?_⟩
      intro g hg
      injection hg with e
      subst e
      omega
    · refine ⟨g0, by simp [maxByMtime, hlt], by omega, Or.inr rfl, ?_⟩
      intro g hg
      injection hg with e
      subst e
      omega

theorem foldl_maxByMtime_spec (l : List FileEntry) :
    ∀ acc f, l.foldl maxByMtime acc = some f →
      (f ∈ l ∨ acc = some f) ∧ (∀ g ∈ l, g.mtime ≤ f.mtime) ∧
      (∀ g, acc = some g → g.mtime ≤ f.mtime) := by
  induction l with
  | nil =>
    intro acc f h
    simp only [List.foldl_nil] at h
    refine ⟨Or.inr h, by simp, fun g hg => ?_⟩
    rw [h] at hg
    injection hg with e
    subst e
    exact le_refl _
  | cons a l ih =>
    intro acc f h
    simp only [List.foldl_cons] at h
    obtain ⟨m, hm, ham, hma, hacc⟩ := maxByMtime_some acc a
    rw [hm] at h
    obtain ⟨hmem, hall, hlast⟩ := ih (some m) f h
    have hmf : m.mtime ≤ f.mtime := hlast m rfl
    refine ⟨?_, ?_, ?_⟩
    · rcases hmem with hf | hf
      · exact Or.inl (List.mem_cons_of_mem _ hf)
      · injection hf with e
        subst e
        rcases hma with rfl | hacc'
        · exact Or.inl (List.mem_cons_self _ _)
        · exact Or.inr hacc'
    · intro g hg
      rcases List.mem_cons.mp hg with rfl | hg'
      · omega
      · exact hall g hg'
    · intro g hg
      have := hacc g hg
      omega

theorem latestRecording_spec (files : List FileEntry) (f : FileEntry)
    (h : latestRecording files = some f) :
    f ∈ files ∧ matchesRecordingGlob f.name = true ∧
      ∀ g ∈ files, matchesRecordingGlob g.name = true → g.mtime ≤ f.mtime := by
  unfold latestRecording at h
  obtain ⟨hmem, hall, -⟩ := foldl_maxByMtime_spec _ none f h
  rcases hmem with hf | hf
  · have hf' := List.mem_filter.mp hf
    exact ⟨hf'.1, hf'.2,
      fun g hg hmg => hall g (List.mem_filter.mpr ⟨hg, hmg⟩)⟩
  · simp at hf

/-! ## Claim theorems -/

/-- Claim C6 (confirmed): for every attempt environment and every
`attempts > 0` in which all attempts fail, `_initialize_capture` fails with
`ConnectionExhausted` after exactly `attempts` consecutive failed attempts,
releases the partially-opened capture after every failure, sleeps the fixed
2-unit backoff between consecutive attempts, and does not sleep after the
final attempt (the release/sleep subsequence of the trace is exactly
`releaseBackoffShape attempts`, which ends in a release). -/
theorem C6_connect_exhausts_with_backoff
    (env : Nat → AttemptOutcome) (n : Nat) (hn : 0 < n)
    (hfail : ∀ i, i < n → attemptFails (env i) = true) :
    (initializeCapture env n).1 = .connectionExhausted ∧
    (initializeCapture env n).2.count .tryOpen = n ∧
    (initializeCapture env n).2.filter isReleaseOrSleep =
      releaseBackoffShape n := by
  obtain ⟨r, rfl⟩ : ∃ r, n = r + 1 := ⟨n - 1, by omega⟩
  exact initAux_allFail env (r + 1) r 0 (by omega) (fun j _ hj => hfail j hj)

/-- Witness for C6 at `attempts = 2` with both attempts failing to open. -/
theorem C6_connect_exhausts_with_backoff_witness :
    (initializeCapture (fun _ => AttemptOutcome.openFailed) 2).1 =
      InitResult.connectionExhausted ∧
    (initializeCapture (fun _ => AttemptOutcome.openFailed) 2).2.count
      InitEvent.tryOpen = 2 ∧
    (initializeCapture (fun _ => AttemptOutcome.openFailed) 2).2.filter
      isReleaseOrSleep = releaseBackoffShape 2 :=
  C6_connect_exhausts_with_backoff (fun _ => AttemptOutcome.openFailed) 2
    (by decide) (fun i _ => rfl)

/-- Claim C7 (confirmed): whenever `_initialize_capture` returns normally
the stored frame rate — the value `record` later passes to
`cv2.VideoWriter` on line 99 — is strictly positive, and a successful first
attempt whose reported rate is at most 0 stores exactly the fallback 30. -/
theorem C7_fps_fallback_positive :
    (∀ (env : Nat → AttemptOutcome) (total r i : Nat) (w h f : Int),
      (initAux env total i r).1 = .connected w h f → 0 < f) ∧
    (∀ (p : StreamProps) (env : Nat → AttemptOutcome) (n : Nat),
      0 < p.width → 0 < p.height → p.fps ≤ 0 →
      env 0 = AttemptOutcome.opened p → 0 < n →
      (initializeCapture env n).1 = .connected p.width p.height 30) := by
  constructor
  · intro env total r i w h f hEq
    exact initAux_connected_fps_pos env total r i w h f hEq
  · intro p env n hw hh hfps henv hn
    obtain ⟨m, rfl⟩ : ∃ m, n = m + 1 := ⟨n - 1, by omega⟩
    have hgeo : ¬ (p.width ≤ 0 ∨ p.height ≤ 0) := by
      push_neg
      exact ⟨hw, hh⟩
    simp [initializeCapture, initAux, henv, hgeo, hfps]

/-- Witness for C7: a first attempt negotiating 640x480 at reported rate 0
connects with the fallback rate 30. -/
theorem C7_fps_fallback_positive_witness :
    (initializeCapture
      (fun _ => AttemptOutcome.opened ⟨640, 480, 0⟩) 1).1 =
      InitResult.connected 640 480 30 :=
  C7_fps_fallback_positive.2 ⟨640, 480, 0⟩
    (fun _ => AttemptOutcome.opened ⟨640, 480, 0⟩) 1
    (by decide) (by decide) (by decide) rfl (by decide)

/-- Claim C4 (counterexample): with two attempts, the first negotiating a
zero width, `_initialize_capture` does not fail fast with
`InvalidGeometry` — it releases the capture, sleeps the backoff, spends the
second attempt and connects, proceeding to recording. -/
theorem C4_invalid_geometry_cex :
    initializeCapture
      (fun i => if i = 0 then AttemptOutcome.opened ⟨0, 480, 25⟩
                else AttemptOutcome.opened ⟨640, 480, 25⟩) 2 =
      (InitResult.connected 640 480 25,
        [InitEvent.tryOpen, InitEvent.openedProps ⟨0, 480, 25⟩,
         InitEvent.release, InitEvent.sleep 2, InitEvent.tryOpen,
         InitEvent.openedProps ⟨640, 480, 25⟩]) := by
  decide

/-- Claim C4 (amended): a non-positive negotiated dimension aborts only that
attempt; the `ValueError` is caught by the generic retry handler, which
releases the capture, waits the backoff, and spends the remaining retry
attempts — a later attempt with valid geometry connects normally, and there
is no distinct `InvalidGeometry` failure. -/
theorem C4_invalid_geometry_consumes_retry
    (p q : StreamProps) (n : Nat)
    (hp : p.width ≤ 0 ∨ p.height ≤ 0)
    (hqw : 0 < q.width) (hqh : 0 < q.height) (hn : 2 ≤ n) :
    initializeCapture
      (fun i => if i = 0 then AttemptOutcome.opened p
                else AttemptOutcome.opened q) n =
      (InitResult.connected q.width q.height
        (if q.fps ≤ 0 then 30 else q.fps),
        [InitEvent.tryOpen, InitEvent.openedProps p, InitEvent.release,
         InitEvent.sleep 2, InitEvent.tryOpen,
         InitEvent.openedProps q]) := by
  obtain ⟨m, rfl⟩ : ∃ m, n = m + 2 := ⟨n - 2, by omega⟩
  have hqgeo : ¬ (q.width ≤ 0 ∨ q.height ≤ 0) := by
    push_neg
    exact ⟨hqw, hqh⟩
  have hg : (0 : Nat) < m + 2 - 1 := by omega
  simp [initializeCapture, initAux, hp, hg, if_neg hqgeo]

/-- Witness for the amended C4: bad geometry on attempt 0, valid 640x480 at
reported rate 0 on attempt 1, two attempts in total. -/
theorem C4_invalid_geometry_consumes_retry_witness :
    initializeCapture
      (fun i => if i = 0 then AttemptOutcome.opened ⟨0, 480, 25⟩
                else AttemptOutcome.opened ⟨640, 480, 0⟩) 2 =
      (InitResult.connected 640 480 30,
        [InitEvent.tryOpen, InitEvent.openedProps ⟨0, 480, 25⟩,
         InitEvent.release, InitEvent.sleep 2, InitEvent.tryOpen,
         InitEvent.openedProps ⟨640, 480, 0⟩]) := by
  have h := C4_invalid_geometry_consumes_retry ⟨0, 480, 25⟩ ⟨640, 480, 0⟩ 2
    (Or.inl (by decide)) (by decide) (by decide) (by decide)
  rw [h]
  decide

/-- Claim C1 (counterexample): a run that wrote one frame and then stays
stale until `reconnection_count` reaches `max_reconnections` leaves the loop
via the max-reconnections `break`, yet `record` returns `True` — not a
failure — because the output file is non-empty. -/
theorem C1_reconnect_exhaustion_cex :
    recordLoop 100 0 (initialRecState 0)
      [⟨false, true, 1, false, 0⟩, ⟨false, false, 10, true, 10⟩,
       ⟨false, false, 20, true, 20⟩, ⟨false, false, 30, true, 30⟩,
       ⟨false, false, 40, true, 40⟩] =
      some (LoopExit.maxReconnects, ⟨30, 3, 1, 1⟩) ∧
    recordResult 100 0 (initialRecState 0)
      [⟨false, true, 1, false, 0⟩, ⟨false, false, 10, true, 10⟩,
       ⟨false, false, 20, true, 20⟩, ⟨false, false, 30, true, 30⟩,
       ⟨false, false, 40, true, 40⟩] = some true := by
  constructor <;> decide

/-- Claim C1 (amended): when the frame source stays stale after
`reconnection_count` has reached `max_reconnections`, the Recording Loop
terminates via the max-reconnections `break`, but `record` reports failure
if and only if the output file is empty — if earlier frames were written,
the result reports success. -/
theorem C1_reconnect_exhaustion_result (duration startTime : Int)
    (st : RecState) (steps : List LoopStep) (st' : RecState)
    (h : recordLoop duration startTime st steps =
      some (LoopExit.maxReconnects, st')) :
    recordResult duration startTime st steps = some false ↔
      st'.fileSize = 0 := by
  unfold recordResult
  rw [h]
  simp only [Option.map_some', Option.some.injEq, decide_eq_false_iff_not]
  omega

/-- Witness for the amended C1: a run that never wrote a frame exhausts
reconnections and reports failure (empty file). -/
theorem C1_reconnect_exhaustion_result_witness :
    recordResult 100 0 (initialRecState 0)
      [⟨false, false, 10, true, 10⟩, ⟨false, false, 20, true, 20⟩,
       ⟨false, false, 30, true, 30⟩, ⟨false, false, 40, true, 40⟩] =
      some false :=
  (C1_reconnect_exhaustion_result 100 0 (initialRecState 0)
    [⟨false, false, 10, true, 10⟩, ⟨false, false, 20, true, 20⟩,
     ⟨false, false, 30, true, 30⟩, ⟨false, false, 40, true, 40⟩]
    ⟨30, 3, 0, 0⟩ (by decide)).mpr rfl

/-- Claim C9 (confirmed): however the loop exits — stop flag, duration,
reconnect exhaustion, or an exception swallowed by the returning `finally` —
`record`'s boolean result is exactly the final file check: `True` iff the
output file has non-zero size. -/
theorem C9_record_result_is_final_file_check (duration startTime : Int)
    (st : RecState) (steps : List LoopStep) (ex : LoopExit) (st' : RecState)
    (h : recordLoop duration startTime st steps = some (ex, st')) :
    recordResult duration startTime st steps =
      some (decide (0 < st'.fileSize)) := by
  unfold recordResult
  rw [h]
  rfl

/-- Witness for C9: a reconnection failure raises inside the loop, the
`except` handler's `return False` is overridden by the `finally`, and the
result is the file check (here: empty file, so `False`). -/
theorem C9_record_result_is_final_file_check_witness :
    recordResult 100 0 (initialRecState 0)
      [⟨false, false, 50, false, 0⟩] = some false :=
  C9_record_result_is_final_file_check 100 0 (initialRecState 0)
    [⟨false, false, 50, false, 0⟩] LoopExit.exception ⟨0, 0, 0, 0⟩
    (by decide)

/-- Claim C8 (confirmed): while `is_recording` is true, a second
`start_recording` returns `(False, "Already recording")` and has no side
effects: no process spawned, no thread started, state unchanged. -/
theorem C8_second_start_rejected (st : ManagerState) (now : Int)
    (h : st.is_recording = true) :
    start_recording st now = ((false, "Already recording"), st, []) := by
  simp [start_recording, h]

/-- Witness for C8 at a concrete active state. -/
theorem C8_second_start_rejected_witness :
    start_recording ⟨true, true, true, some 0⟩ 7 =
      ((false, "Already recording"), ⟨true, true, true, some 0⟩, []) :=
  C8_second_start_rejected ⟨true, true, true, some 0⟩ 7 rfl

/-- Claim C2 (counterexample): after a `start` from idle, the recorder
subprocess may exit while the completion pipeline is still uploading; the
manager state is unchanged during that window (`is_recording` is reset only
by the pipeline's `finally`), so a new `start` in that window is rejected
with `Already recording` — it is accepted only once `completionFinally` has
run. -/
theorem C2_start_blocked_by_pipeline_cex :
    (start_recording (start_recording idleManagerState 0).2.1 50).1 =
      (false, "Already recording") ∧
    (start_recording (completionFinally
      (start_recording idleManagerState 0).2.1) 50).1 =
      (true, "Recording started") := by
  constructor <;> rfl

/-- Claim C2 (amended): a new `start` is accepted only after the completion
pipeline has finished (its `finally` resets `is_recording`); while the
pipeline is still running after the recording loop terminated,
`is_recording` is still true and `start` is rejected — upload latency does
delay acceptance of a new `start`. -/
theorem C2_start_accepted_only_after_pipeline (st : ManagerState) (now : Int)
    (h : st.is_recording = true) :
    (start_recording st now).1 = (false, "Already recording") ∧
    (start_recording (completionFinally st) now).1 =
      (true, "Recording started") := by
  constructor
  · simp [start_recording, h]
  · simp [start_recording, completionFinally]

/-- Witness for the amended C2 at a concrete active state. -/
theorem C2_start_accepted_only_after_pipeline_witness :
    (start_recording ⟨true, true, true, some 0⟩ 120).1 =
      (false, "Already recording") ∧
    (start_recording (completionFinally ⟨true, true, true, some 0⟩) 120).1 =
      (true, "Recording started") :=
  C2_start_accepted_only_after_pipeline ⟨true, true, true, some 0⟩ 120 rfl

/-- Claim C5 (confirmed): `stop_recording` during an active recording
computes the remaining budget `max(0, duration - elapsed)`; below 10 seconds
it only waits for the process (natural finish), otherwise it terminates the
process and waits; in both branches it then joins the upload thread bounded
by the 300-second upload timeout. -/
theorem C5_stop_budget_branches (st : ManagerState) (now duration t0 : Int)
    (hrec : st.is_recording = true) (hp : st.processPresent = true)
    (hu : st.uploadThreadPresent = true)
    (ht : st.recordingStartTime = some t0) :
    stop_recording st now duration =
      (some (true, "Recording stopped and saved successfully"), st,
        (if max 0 (duration - (now - t0)) < 10 then
          [ManagerEvent.waitProcess]
        else [ManagerEvent.terminateProcess, ManagerEvent.waitProcess]) ++
        [ManagerEvent.joinUploadThread 300]) := by
  simp [stop_recording, hrec, hp, hu, ht]

/-- Witness for C5: stopping 5 seconds into a 180-second budget terminates
the process, waits for it, then joins the upload thread. -/
theorem C5_stop_budget_branches_witness :
    stop_recording ⟨true, true, true, some 0⟩ 5 180 =
      (some (true, "Recording stopped and saved successfully"),
        ⟨true, true, true, some 0⟩,
        [ManagerEvent.terminateProcess, ManagerEvent.waitProcess,
         ManagerEvent.joinUploadThread 300]) := by
  have h := C5_stop_budget_branches ⟨true, true, true, some 0⟩ 5 180 0
    rfl rfl rfl rfl
  rw [h]
  norm_num

/-- Claim C3 (confirmed): per completed upload task, the selected local file
is deleted iff the archival command exits with code 0; non-zero exit and
timeout both retain the directory unchanged; and at most one `iput`
invocation is ever made per session (exactly one when a file was selected
and the recorder exited cleanly). -/
theorem C3_upload_delete_iff_success (dest : String)
    (files : List FileEntry) (upload : UploadOutcome) (mgr : ManagerState)
    (f : FileEntry) (hf : latestRecording files = some f) :
    (handleRecordingCompletion 0 dest files upload mgr).invocations =
      [(f.name, dest)] ∧
    (handleRecordingCompletion 0 dest files upload mgr).files =
      (if uploadSucceeded upload then
        files.filter (fun g => g.name ≠ f.name)
      else files) ∧
    (∀ code msg, uploadSucceeded (UploadOutcome.exited code msg) = true ↔
      code = 0) ∧
    uploadSucceeded UploadOutcome.timedOut = false ∧
    (∀ rc : Int,
      (handleRecordingCompletion rc dest files upload mgr).invocations.length
        ≤ 1) := by
  refine ⟨?_, ?_, ?_, rfl, ?_⟩
  · by_cases hu : uploadSucceeded upload <;>
      simp [handleRecordingCompletion, hf, hu]
  · by_cases hu : uploadSucceeded upload <;>
      simp [handleRecordingCompletion, hf, hu]
  · intro code msg
    simp [uploadSucceeded]
  · intro rc
    by_cases hrc : rc = 0
    · subst hrc
      by_cases hu : uploadSucceeded upload <;>
        simp [handleRecordingCompletion, hf, hu]
    · simp [handleRecordingCompletion, hrc]

/-- Witness for C3: a successful upload of the only recording deletes it. -/
theorem C3_upload_delete_iff_success_witness :
    (handleRecordingCompletion 0 "archive/path"
      [⟨"recording_20250101_000000.mp4", 5, 42⟩]
      (UploadOutcome.exited 0 "") idleManagerState).invocations =
      [("recording_20250101_000000.mp4", "archive/path")] ∧
    (handleRecordingCompletion 0 "archive/path"
      [⟨"recording_20250101_000000.mp4", 5, 42⟩]
      (UploadOutcome.exited 0 "") idleManagerState).files = [] := by
  have h := C3_upload_delete_iff_success "archive/path"
    [⟨"recording_20250101_000000.mp4", 5, 42⟩]
    (UploadOutcome.exited 0 "") idleManagerState
    ⟨"recording_20250101_000000.mp4", 5, 42⟩ (by decide)
  refine ⟨h.1, ?_⟩
  rw [h.2.1]
  decide

/-- Claim C10 (confirmed): the completion pipeline resolves the file to
upload as the `recording_*.mp4` entry of greatest modification time in the
shared directory — a selection that takes no session-specific path, so it
need not be this session's file; when a file is selected it is the one
passed to `iput`, and when none matches the pipeline makes no invocation
and deletes nothing. -/
theorem C10_upload_selects_latest_by_mtime :
    (∀ (files : List FileEntry) (f : FileEntry),
      latestRecording files = some f →
      f ∈ files ∧ matchesRecordingGlob f.name = true ∧
        ∀ g ∈ files, matchesRecordingGlob g.name = true →
          g.mtime ≤ f.mtime) ∧
    (∀ (dest : String) (files : List FileEntry) (upload : UploadOutcome)
      (mgr : ManagerState) (f : FileEntry),
      latestRecording files = some f →
      (handleRecordingCompletion 0 dest files upload mgr).invocations =
        [(f.name, dest)]) ∧
    (∀ (rc : Int) (dest : String) (files : List FileEntry)
      (upload : UploadOutcome) (mgr : ManagerState),
      latestRecording files = none →
      (handleRecordingCompletion rc dest files upload mgr).invocations =
        [] ∧
      (handleRecordingCompletion rc dest files upload mgr).files = files)
    := by
  refine ⟨latestRecording_spec, ?_, ?_⟩
  · intro dest files upload mgr f hf
    by_cases hu : uploadSucceeded upload <;>
      simp [handleRecordingCompletion, hf, hu]
  · intro rc dest files upload mgr hnone
    by_cases hrc : rc = 0
    · subst hrc
      simp [handleRecordingCompletion, hnone]
    · simp [handleRecordingCompletion, hrc]

/-- Witness for C10: among two matching recordings and one non-matching
file, the newer recording is selected (it matches the glob and belongs to
the directory); a directory with no matching file yields no invocation. -/
theorem C10_upload_selects_latest_by_mtime_witness :
    ((⟨"recording_b.mp4", 9, 20⟩ : FileEntry) ∈
      [(⟨"recording_a.mp4", 1, 10⟩ : FileEntry),
       ⟨"recording_b.mp4", 9, 20⟩, ⟨"notes.txt", 99, 0⟩]) ∧
    matchesRecordingGlob "recording_b.mp4" = true ∧
    (handleRecordingCompletion 0 "archive/path"
      [(⟨"notes.txt", 99, 0⟩ : FileEntry)] UploadOutcome.timedOut
      idleManagerState).invocations = [] := by
  have h1 := C10_upload_selects_latest_by_mtime.1
    [⟨"recording_a.mp4", 1, 10⟩, ⟨"recording_b.mp4", 9, 20⟩,
     ⟨"notes.txt", 99, 0⟩] ⟨"recording_b.mp4", 9, 20⟩ (by decide)
  have h3 := C10_upload_selects_latest_by_mtime.2.2 0 "archive/path"
    [⟨"notes.txt", 99, 0⟩] UploadOutcome.timedOut idleManagerState
    (by decide)
  exact ⟨h1.1, h1.2.1, h3.1⟩
